import Mathlib

/-!
# Verification of the compliance evidence & risk reconciliation engine

Shallow embedding of the engine's pure core, translated from the
TypeScript source of the ISMS backend:

* `src/modules/integrations/routes.ts` — evidence dedup for GitHub scans
  (`upsertEvidenceForScan`), automated test runner (`runAutomatedTests`),
  risk upsert for the GitHub scan path (`upsertRisk`), score matrix
  (`calcScore`), control status aggregation (`updateControlStatuses`).
* `src/modules/agent/routes.ts` — device-posture risk engine
  (`runRiskEngine`), posture classification (`calcComplianceStatus`),
  rule table (`COMPLIANCE_RULES`).
* `src/modules/tests/routes.ts` — display status state machine
  (`computeStatus`).
* `src/modules/integrations/github-test-evaluator.ts` — per-run cached
  data fetchers (`getRepos` etc.), result mapping
  (`evalResultToTestStatus`).

Databases are modelled as lists of rows; each Prisma call sequence of a
source function becomes a pure state transformer on those lists.
-/

namespace ISMS

/-- Risk.status values used by the engine ('OPEN' / 'MITIGATED'). -/
inductive RiskStatus
  | OPEN
  | MITIGATED
deriving DecidableEq, Repr

/-- Control.status values written by the aggregator. -/
inductive ControlStatus
  | IMPLEMENTED
  | PARTIALLY_IMPLEMENTED
  | NOT_IMPLEMENTED
deriving DecidableEq, Repr

/-- Evaluation results produced by the rule evaluator. -/
inductive EvalResult
  | Pass
  | Fail
  | Warning
deriving DecidableEq, Repr

/-- Device check-in classification. -/
inductive ComplianceStatus
  | COMPLIANT
  | NON_COMPLIANT
deriving DecidableEq, Repr

/-- A Risk row. Fields as in the Prisma `Risk` model that the engine
touches: title, description, impact, likelihood, riskScore, status,
assetId (the subject). Impact/likelihood are strings in the source. -/
structure Risk where
  title : String
  description : String
  impact : String
  likelihood : String
  riskScore : Nat
  status : RiskStatus
  assetId : String
deriving DecidableEq, Repr

/-- An Evidence row: the engine only reads/writes `hash` and `controlId`
when deduplicating. -/
structure Evidence where
  hash : String
  controlId : String
deriving DecidableEq, Repr

/-- `LEVEL_VALUE` from `integrations/routes.ts`:
`{ LOW: 1, MEDIUM: 2, HIGH: 3, CRITICAL: 4 }` (record lookup, `none`
for a missing key). -/
def LEVEL_VALUE (s : String) : Option Nat :=
  if s = "LOW" then some 1
  else if s = "MEDIUM" then some 2
  else if s = "HIGH" then some 3
  else if s = "CRITICAL" then some 4
  else none

/-- `calcScore(impact, likelihood) = (LEVEL_VALUE[impact] ?? 2) *
(LEVEL_VALUE[likelihood] ?? 2)`. -/
def calcScore (impact likelihood : String) : Nat :=
  (LEVEL_VALUE impact).getD 2 * (LEVEL_VALUE likelihood).getD 2

/-- A GitHub-scan check definition (`CheckDef` in the source): key into
the scan result, ISO reference, title/description templates, and severity
weights. -/
structure CheckDef where
  key : String
  isoRef : String
  riskTitle : String → String
  riskDesc : String → String
  impact : String
  likelihood : String

/-- The `CHECKS` table from `integrations/routes.ts` (descriptions
abbreviated to the title templates the matching logic uses). -/
def CHECKS : List CheckDef := [
  { key := "branchProtection", isoRef := "A.8.32",
    riskTitle := fun r => "Branch protection not enabled on " ++ r,
    riskDesc := fun r => "Repository " ++ r ++ " has no required pull request reviews or status checks on the default branch, allowing unreviewed code to reach production.",
    impact := "HIGH", likelihood := "MEDIUM" },
  { key := "commitSigning", isoRef := "A.8.24",
    riskTitle := fun r => "Commit signing not enforced on " ++ r,
    riskDesc := fun r => "Less than 80% of recent commits in " ++ r ++ " are cryptographically signed, making it impossible to verify code authorship.",
    impact := "HIGH", likelihood := "MEDIUM" },
  { key := "cicd", isoRef := "A.8.25",
    riskTitle := fun r => "No CI/CD pipeline detected in " ++ r,
    riskDesc := fun r => "Repository " ++ r ++ " has no GitHub Actions workflows, indicating a lack of automated security testing in the SDLC.",
    impact := "MEDIUM", likelihood := "MEDIUM" },
  { key := "accessControl", isoRef := "A.5.15",
    riskTitle := fun r => "Excessive collaborator access on " ++ r,
    riskDesc := fun r => "Repository " ++ r ++ " has external collaborators or more than 3 admins, violating least-privilege access control principles.",
    impact := "HIGH", likelihood := "HIGH" },
  { key := "repoMeta", isoRef := "A.5.15",
    riskTitle := fun r => "Public repository exposure: " ++ r,
    riskDesc := fun r => "Repository " ++ r ++ " is publicly visible, potentially exposing proprietary code, credentials, or internal architecture.",
    impact := "HIGH", likelihood := "HIGH" }]

/-- Predicate used by `upsertRisk`'s `findFirst({ where: { assetId, title } })`. -/
def riskMatches (assetId title : String) (r : Risk) : Bool :=
  r.assetId == assetId && r.title == title

/-- Replace the first element satisfying `p` by its image under `f`
(models a Prisma `update({ where: { id: found.id } })` after a
`findFirst`). -/
def replaceFirst (p : Risk → Bool) (f : Risk → Risk) : List Risk → List Risk
  | [] => []
  | r :: rs => if p r then f r :: rs else r :: replaceFirst p f rs

/-- `upsertRisk` from the GitHub scan path (`integrations/routes.ts`):
find by (assetId, title); if found and OPEN do nothing; if found and not
OPEN, set status OPEN and refresh riskScore; otherwise create a new OPEN
risk with `calcScore` of the check's weights. `organizationId` is taken
but unused, as in the source. -/
def upsertRisk (db : List Risk) (organizationId assetId : String)
    (check : CheckDef) (repoFullName : String) : List Risk :=
  let _ := organizationId
  let title := check.riskTitle repoFullName
  let riskScore := calcScore check.impact check.likelihood
  match db.find? (riskMatches assetId title) with
  | some existing =>
      if existing.status = RiskStatus.OPEN then db
      else replaceFirst (riskMatches assetId title)
        (fun r => { r with status := RiskStatus.OPEN, riskScore := riskScore }) db
  | none =>
      db ++ [{ title := title, description := check.riskDesc repoFullName,
               impact := check.impact, likelihood := check.likelihood,
               riskScore := riskScore, status := RiskStatus.OPEN,
               assetId := assetId }]

/-- An agent compliance rule (`COMPLIANCE_RULES` entry in
`agent/routes.ts`): posture field, ISO reference, risk title/description
and hard-coded severity weights and score. -/
structure AgentRule where
  field : String
  isoRef : String
  riskTitle : String
  description : String
  impact : String
  likelihood : String
  score : Nat
deriving Repr

def diskEncryptionRule : AgentRule :=
  { field := "diskEncryptionEnabled", isoRef := "A.8.24",
    riskTitle := "Endpoint without disk encryption",
    description := "A managed device does not have full-disk encryption enabled (FileVault). This exposes data to physical theft.",
    impact := "HIGH", likelihood := "MEDIUM", score := 12 }

def screenLockRule : AgentRule :=
  { field := "screenLockEnabled", isoRef := "A.5.15",
    riskTitle := "Device without automatic screen lock",
    description := "A managed device does not require a password after screensaver activation, violating access control policy.",
    impact := "MEDIUM", likelihood := "MEDIUM", score := 9 }

def firewallRule : AgentRule :=
  { field := "firewallEnabled", isoRef := "A.8.20",
    riskTitle := "Endpoint firewall disabled",
    description := "A managed device is running without an active host-based firewall, increasing network attack surface.",
    impact := "MEDIUM", likelihood := "LOW", score := 6 }

def systemIntegrityRule : AgentRule :=
  { field := "systemIntegrityEnabled", isoRef := "A.8.7",
    riskTitle := "System Integrity Protection disabled on endpoint",
    description := "SIP has been disabled on a managed device, reducing protection against rootkits and malware.",
    impact := "HIGH", likelihood := "LOW", score := 8 }

def autoUpdateRule : AgentRule :=
  { field := "autoUpdateEnabled", isoRef := "A.8.8",
    riskTitle := "Automatic OS updates disabled on endpoint",
    description := "A managed device has automatic software updates turned off, leaving it potentially unpatched.",
    impact := "MEDIUM", likelihood := "HIGH", score := 12 }

/-- `COMPLIANCE_RULES` from `agent/routes.ts`. -/
def COMPLIANCE_RULES : List AgentRule :=
  [diskEncryptionRule, screenLockRule, firewallRule, systemIntegrityRule,
   autoUpdateRule]

/-- The risk part of `runRiskEngine`'s failing branch
(`agent/routes.ts`): `findFirst({ where: { assetId, title, status: OPEN } })`;
if none, `create` a new OPEN risk with the rule's hard-coded weights and
score and description suffixed with the device name. -/
def agentFailRiskStep (db : List Risk) (assetId assetName : String)
    (rule : AgentRule) : List Risk :=
  match db.find? (fun r =>
      r.assetId == assetId && r.title == rule.riskTitle
        && r.status == RiskStatus.OPEN) with
  | some _ => db
  | none =>
      db ++ [{ title := rule.riskTitle,
               description := rule.description ++ "\n\nDevice: " ++ assetName,
               impact := rule.impact, likelihood := rule.likelihood,
               riskScore := rule.score, status := RiskStatus.OPEN,
               assetId := assetId }]

/-- The passing branch of `runRiskEngine` (`agent/routes.ts`):
`updateMany({ where: { assetId, title, status: OPEN }, data: { status:
MITIGATED } })`. -/
def agentPassStep (db : List Risk) (assetId : String) (rule : AgentRule) :
    List Risk :=
  db.map (fun r =>
    if r.assetId == assetId && r.title == rule.riskTitle
        && r.status == RiskStatus.OPEN
    then { r with status := RiskStatus.MITIGATED } else r)

/-- The evidence write of `upsertEvidenceForScan` for one check
(`integrations/routes.ts`): `findFirst({ where: { controlId, hash } })`;
create only when missing. -/
def upsertEvidenceStepScan (db : List Evidence) (controlId hash : String) :
    List Evidence :=
  match db.find? (fun e => e.controlId == controlId && e.hash == hash) with
  | some _ => db
  | none => db ++ [{ hash := hash, controlId := controlId }]

/-- The evidence write inside `runRiskEngine` (`agent/routes.ts`):
`findFirst({ where: { hash } })` — the lookup is by hash only — then
create only when missing. -/
def agentEvidenceStep (db : List Evidence) (controlId hash : String) :
    List Evidence :=
  match db.find? (fun e => e.hash == hash) with
  | some _ => db
  | none => db ++ [{ hash := hash, controlId := controlId }]

/-- `DUE_SOON_DAYS * 24 * 60 * 60 * 1000` from the tests module. -/
def DUE_SOON_MS : Int := 14 * 24 * 60 * 60 * 1000

/-- `computeStatus(stored, dueDate, completedAt)` from the test
management routes; timestamps in epoch milliseconds, `Date.now()` passed
explicitly as `now`. -/
def computeStatus (stored : String) (due : Int) (completedAt : Option Int)
    (now : Int) : String :=
  if completedAt.isSome then "OK"
  else if due < now then "Overdue"
  else if due - now ≤ DUE_SOON_MS then "Due_soon"
  else if stored = "Needs_remediation" then "Needs_remediation"
  else "Due_soon"

/-- Modelled from the spec: the section-4.6 pseudocode of the task status
state machine, in which BOTH non-overdue branches preserve a stored
`Needs_remediation`. Written from the spec's words, for comparison with
`computeStatus` above. -/
def computeStatusSpec (stored : String) (due : Int) (completedAt : Option Int)
    (now : Int) : String :=
  if completedAt.isSome then "OK"
  else if due < now then "Overdue"
  else if due - now ≤ DUE_SOON_MS then
    (if stored = "Needs_remediation" then "Needs_remediation" else "Due_soon")
  else
    (if stored = "Needs_remediation" then "Needs_remediation" else "Due_soon")

/-- `evalResultToTestStatus` from `github-test-evaluator.ts`. -/
def evalResultToTestStatus : EvalResult → String
  | .Pass => "OK"
  | .Warning => "Due_soon"
  | .Fail => "Needs_remediation"

/-- The fields of a `Test` row touched by the automated runner and the
display function. -/
structure TestRow where
  status : String
  lastResult : Option EvalResult
  completedAt : Option Int
  dueDate : Int
deriving DecidableEq, Repr

/-- The `prisma.test.update` of one automated run in `runAutomatedTests`
(`integrations/routes.ts`): status becomes the mapped evaluation result,
`completedAt` is set to `now` only on Pass when not already set,
otherwise kept. -/
def runTestUpdate (t : TestRow) (evalStatus : EvalResult) (now : Int) :
    TestRow :=
  { t with
    status := evalResultToTestStatus evalStatus,
    lastResult := some evalStatus,
    completedAt :=
      if evalStatus == EvalResult.Pass && t.completedAt.isNone then some now
      else t.completedAt }

/-- A sequence of automated runs applied to a test row. -/
def runTestUpdates (t : TestRow) (runs : List (EvalResult × Int)) : TestRow :=
  runs.foldl (fun acc p => runTestUpdate acc p.1 p.2) t

/-- Pass/total counters accumulated per check (`checkPassCounts`). -/
structure Counts where
  pass : Nat
  total : Nat
deriving DecidableEq, Repr

/-- `checkPassCounts` keyed by the five check keys initialised in
`upsertAssetsAndRisks`. -/
structure CheckPassCounts where
  branchProtection : Counts
  commitSigning : Counts
  cicd : Counts
  accessControl : Counts
  repoMeta : Counts
deriving DecidableEq, Repr

/-- Lookup `checkPassCounts[checkKey]`. -/
def cpcGet (c : CheckPassCounts) (key : String) : Option Counts :=
  if key = "branchProtection" then some c.branchProtection
  else if key = "commitSigning" then some c.commitSigning
  else if key = "cicd" then some c.cicd
  else if key = "accessControl" then some c.accessControl
  else if key = "repoMeta" then some c.repoMeta
  else none

/-- The `isoMap` of `updateControlStatuses`. -/
def isoMap : List (String × List String) := [
  ("branchProtection", ["A.8.32"]),
  ("commitSigning", ["A.8.24"]),
  ("cicd", ["A.8.25"]),
  ("accessControl", ["A.5.15", "A.5.18"]),
  ("repoMeta", ["A.5.15"])]

/-- Accumulate one check's counts into the per-ISO-reference record
(`controlPassRate[isoRef].pass += counts.pass` etc.); an association list
models the JS object. -/
def bumpRef (acc : List (String × Counts)) (ref : String) (c : Counts) :
    List (String × Counts) :=
  match acc with
  | [] => [(ref, c)]
  | (r, k) :: rest =>
      if r = ref then (r, ⟨k.pass + c.pass, k.total + c.total⟩) :: rest
      else (r, k) :: bumpRef rest ref c

/-- The merge loop of `updateControlStatuses`: for every `isoMap` entry
with a present, non-zero-total counter, add its counts to each of its
ISO references. -/
def controlPassRate (cpc : CheckPassCounts) : List (String × Counts) :=
  isoMap.foldl (fun acc p =>
    match cpcGet cpc p.1 with
    | none => acc
    | some counts =>
        if counts.total = 0 then acc
        else p.2.foldl (fun acc2 ref => bumpRef acc2 ref counts) acc) []

/-- The classification of `updateControlStatuses`:
`rate === 1 → IMPLEMENTED; rate >= 0.5 → PARTIALLY_IMPLEMENTED; else
NOT_IMPLEMENTED`, with `rate = pass / total` (exact division models the
JS float division). -/
def classifyRate (pass total : Nat) : ControlStatus :=
  if (pass : ℚ) / (total : ℚ) = 1 then ControlStatus.IMPLEMENTED
  else if 1 / 2 ≤ (pass : ℚ) / (total : ℚ) then
    ControlStatus.PARTIALLY_IMPLEMENTED
  else ControlStatus.NOT_IMPLEMENTED

/-- A Control row: ISO reference text and status. -/
structure Control where
  isoReference : String
  status : ControlStatus
deriving DecidableEq, Repr

/-- Substring test on lists (`isInfixOf`), used to model Prisma's
`isoReference: { contains: isoRef }`. -/
def listContains (pat : List Char) : List Char → Bool
  | [] => pat.isEmpty
  | c :: rest => pat.isPrefixOf (c :: rest) || listContains pat rest

/-- String containment (`contains` filter in Prisma queries). -/
def strContains (s pat : String) : Bool :=
  listContains pat.data s.data

/-- `prisma.control.updateMany({ where: { isoReference: { contains:
isoRef } }, data: { status } })`. -/
def updateControlsForRef (controls : List Control) (ref : String)
    (st : ControlStatus) : List Control :=
  controls.map (fun c =>
    if strContains c.isoReference ref then { c with status := st } else c)

/-- The write loop of `updateControlStatuses`: classify each merged
(isoRef, counts) entry and update every matching control, ignoring its
previous status. -/
def updateControlStatuses (controls : List Control) (cpc : CheckPassCounts) :
    List Control :=
  (controlPassRate cpc).foldl (fun cs p =>
    if p.2.total = 0 then cs
    else updateControlsForRef cs p.1 (classifyRate p.2.pass p.2.total))
    controls

/-- The control-promotion step at the end of `runAutomatedTests`
(`integrations/routes.ts`): for one control, if every mapped test has
status OK the control is set to IMPLEMENTED, otherwise nothing is
written and the stored status stays. -/
def promoteControlStep (old : ControlStatus)
    (mappedTestStatuses : List String) : ControlStatus :=
  if mappedTestStatuses.all (fun s => s == "OK") then
    ControlStatus.IMPLEMENTED
  else old

/-- The five posture booleans read by `calcComplianceStatus`. -/
structure Posture where
  diskEncryptionEnabled : Bool
  screenLockEnabled : Bool
  firewallEnabled : Bool
  systemIntegrityEnabled : Bool
  autoUpdateEnabled : Bool
deriving DecidableEq, Repr

/-- `posture[field]` for the five rule fields (missing keys are falsy). -/
def postureField (p : Posture) (f : String) : Bool :=
  if f = "diskEncryptionEnabled" then p.diskEncryptionEnabled
  else if f = "screenLockEnabled" then p.screenLockEnabled
  else if f = "firewallEnabled" then p.firewallEnabled
  else if f = "systemIntegrityEnabled" then p.systemIntegrityEnabled
  else if f = "autoUpdateEnabled" then p.autoUpdateEnabled
  else false

/-- `calcComplianceStatus` from `agent/routes.ts`: filter the rule
fields that are falsy in the posture; COMPLIANT iff none fail. -/
def calcComplianceStatus (p : Posture) : ComplianceStatus :=
  let criticalChecks := COMPLIANCE_RULES.map (fun r => r.field)
  let failing := criticalChecks.filter (fun f => !(postureField p f))
  if failing.length = 0 then ComplianceStatus.COMPLIANT
  else ComplianceStatus.NON_COMPLIANT

/-- One cache access of `GitHubTestEvaluator.getRepos` when no other
fetch overlaps: return the cached value, or perform one external call
(returning `external`) and store it. Result: new cache, value returned
to the caller, number of external calls performed. -/
def getReposOnce (cache : Option (List Nat)) (external : List Nat) :
    Option (List Nat) × List Nat × Nat :=
  match cache with
  | some repos => (some repos, repos, 0)
  | none => (some external, external, 1)

/-- `n` sequential (non-overlapping) `getRepos` requests against one
evaluator instance: returns final cache, the list of results handed to
the requesters, and the total number of external calls. -/
def fetchSeq (external : List Nat) : Nat → Option (List Nat) →
    Option (List Nat) × List (List Nat) × Nat
  | 0, c => (c, [], 0)
  | n + 1, c =>
      let s1 := getReposOnce c external
      let s2 := fetchSeq external n s1.1
      (s2.1, s1.2.1 :: s2.2.1, s1.2.2 + s2.2.2)

/-- State of one asynchronous `getRepos` caller: not yet entered, past
the `if (!this.cache.repos)` check and awaiting the HTTP call, or done
with its result. -/
inductive Proc
  | idle
  | fetching
  | done (result : List Nat)
deriving DecidableEq, Repr

/-- Instance state shared by two concurrent `getRepos` callers: the
`this.cache.repos` slot, the count of external calls issued, and the two
callers. -/
structure CacheWorld where
  cache : Option (List Nat)
  calls : Nat
  a : Proc
  b : Proc
deriving DecidableEq, Repr

/-- Scheduler actions: a caller enters `getRepos` (runs the synchronous
cache check up to the first `await`), or its awaited HTTP call resolves
(incrementing the call count and executing `this.cache.repos = repos`). -/
inductive CacheAct
  | startA
  | startB
  | finishA
  | finishB
deriving DecidableEq, Repr

/-- Small-step semantics of the two interleaved callers, faithful to
`getRepos`: the cache is consulted synchronously on entry and written
only after the external call resolves. -/
def stepWorld (external : List Nat) (w : CacheWorld) : CacheAct → CacheWorld
  | .startA =>
      match w.a with
      | .idle =>
          match w.cache with
          | some v => { w with a := .done v }
          | none => { w with a := .fetching }
      | _ => w
  | .startB =>
      match w.b with
      | .idle =>
          match w.cache with
          | some v => { w with b := .done v }
          | none => { w with b := .fetching }
      | _ => w
  | .finishA =>
      match w.a with
      | .fetching =>
          { w with a := .done external, cache := some external,
                   calls := w.calls + 1 }
      | _ => w
  | .finishB =>
      match w.b with
      | .fetching =>
          { w with b := .done external, cache := some external,
                   calls := w.calls + 1 }
      | _ => w

/-- Run a schedule of actions from a world. -/
def runSchedule (external : List Nat) (w : CacheWorld)
    (acts : List CacheAct) : CacheWorld :=
  acts.foldl (stepWorld external) w

/-- Initial world: empty cache, no calls, both callers pending. -/
def initialWorld : CacheWorld :=
  { cache := none, calls := 0, a := Proc.idle, b := Proc.idle }

/-- The per-check body of the repo loop in `upsertAssetsAndRisks`
(`integrations/routes.ts`): bump `total`; on `compliant === true` bump
`pass`; on `compliant === false` call `upsertRisk`; a null verdict only
counts towards `total`. -/
def githubCheckStep (db : List Risk) (counts : Counts)
    (organizationId assetId repoFullName : String) (check : CheckDef)
    (compliant : Option Bool) : List Risk × Counts :=
  match compliant with
  | some true => (db, { pass := counts.pass + 1, total := counts.total + 1 })
  | some false =>
      (upsertRisk db organizationId assetId check repoFullName,
       { pass := counts.pass, total := counts.total + 1 })
  | none => (db, { pass := counts.pass, total := counts.total + 1 })

/-- Modelled from the spec: the ordinal severity mapping named by the
claim and the data-model section, `LOW=1, MEDIUM=2, HIGH=3, CRITICAL=4`
(0 elsewhere); written from the spec's words for comparison with the
scores the code stores. -/
def specOrdinal (s : String) : Nat :=
  if s = "LOW" then 1
  else if s = "MEDIUM" then 2
  else if s = "HIGH" then 3
  else if s = "CRITICAL" then 4
  else 0

/-- The branch-protection check definition (first entry of `CHECKS`). -/
def branchProtectionCheck : CheckDef := CHECKS.get ⟨0, by decide⟩

/-- Sample row: a MITIGATED branch-protection risk for repo `acme/api`
on asset `a1`. -/
def mitigatedBranchRisk : Risk :=
  { title := "Branch protection not enabled on acme/api", description := "d",
    impact := "HIGH", likelihood := "MEDIUM", riskScore := 6,
    status := RiskStatus.MITIGATED, assetId := "a1" }

/-- Sample row: an OPEN branch-protection risk for repo `acme/api` on
asset `a1`. -/
def openBranchRisk : Risk :=
  { title := "Branch protection not enabled on acme/api", description := "d",
    impact := "HIGH", likelihood := "MEDIUM", riskScore := 6,
    status := RiskStatus.OPEN, assetId := "a1" }

/-- Sample row: a MITIGATED disk-encryption risk on device asset `a1`. -/
def mitigatedDiskRisk : Risk :=
  { title := "Endpoint without disk encryption", description := "d",
    impact := "HIGH", likelihood := "MEDIUM", riskScore := 12,
    status := RiskStatus.MITIGATED, assetId := "a1" }

/-- Sample row: an OPEN disk-encryption risk on device asset `a1`. -/
def openDiskRisk : Risk :=
  { title := "Endpoint without disk encryption", description := "d",
    impact := "HIGH", likelihood := "MEDIUM", riskScore := 12,
    status := RiskStatus.OPEN, assetId := "a1" }

/-- Sample aggregate counters with every check observed at least once. -/
def sampleCounts : CheckPassCounts :=
  { branchProtection := ⟨1, 1⟩, commitSigning := ⟨1, 1⟩, cicd := ⟨1, 1⟩,
    accessControl := ⟨1, 2⟩, repoMeta := ⟨0, 1⟩ }

/-- Sample control mapped to ISO reference A.5.15, currently
IMPLEMENTED. -/
def sampleControl : Control :=
  { isoReference := "A.5.15 Access control", status := ControlStatus.IMPLEMENTED }

/-- Sample test row whose completedAt is already set. -/
def sampleTestRow : TestRow :=
  { status := "OK", lastResult := some EvalResult.Pass,
    completedAt := some 5, dueDate := 100 }

/-! ## Helper lemmas -/

theorem replaceFirst_length (p : Risk → Bool) (f : Risk → Risk) :
    ∀ l : List Risk, (replaceFirst p f l).length = l.length := by
  intro l
  induction l with
  | nil => rfl
  | cons r rs ih =>
      by_cases h : p r = true
      · simp [replaceFirst, h]
      · simp [replaceFirst, h, ih]

theorem countP_replaceFirst (p : Risk → Bool) (f : Risk → Risk)
    (hf : ∀ r, p r = true → p (f r) = true) :
    ∀ l : List Risk, (replaceFirst p f l).countP p = l.countP p := by
  intro l
  induction l with
  | nil => rfl
  | cons r rs ih =>
      by_cases h : p r = true
      · simp [replaceFirst, h, List.countP_cons, hf r h]
      · simp [replaceFirst, h, List.countP_cons, ih]

theorem find?_replaceFirst (p : Risk → Bool) (f : Risk → Risk)
    (l : List Risk) (r : Risk) (hfind : l.find? p = some r)
    (hfr : p (f r) = true) :
    (replaceFirst p f l).find? p = some (f r) := by
  induction l with
  | nil => simp at hfind
  | cons x xs ih =>
      by_cases h : p x = true
      · rw [List.find?_cons_of_pos _ h] at hfind
        injection hfind with hx
        subst hx
        simp [replaceFirst, h, List.find?_cons_of_pos _ hfr]
      · rw [List.find?_cons_of_neg _ (by simp [h])] at hfind
        simp [replaceFirst, h, List.find?_cons_of_neg,
          ih hfind]

theorem find?_append_none {α : Type} (p : α → Bool) (l₁ l₂ : List α)
    (h : l₁.find? p = none) : (l₁ ++ l₂).find? p = l₂.find? p := by
  simp [List.find?_append, h]

theorem classifyRate_char (pass total : Nat) (h : 0 < total) :
    classifyRate pass total =
      if pass = total then ControlStatus.IMPLEMENTED
      else if total ≤ 2 * pass then ControlStatus.PARTIALLY_IMPLEMENTED
      else ControlStatus.NOT_IMPLEMENTED := by
  have htpos : (0 : ℚ) < (total : ℚ) := by exact_mod_cast h
  have ht : (total : ℚ) ≠ 0 := ne_of_gt htpos
  have hone : ((pass : ℚ) / (total : ℚ) = 1) ↔ pass = total := by
    rw [div_eq_one_iff_eq ht, Nat.cast_inj]
  have hhalf : ((1 : ℚ) / 2 ≤ (pass : ℚ) / (total : ℚ)) ↔ total ≤ 2 * pass := by
    rw [div_le_div_iff₀ (by norm_num) htpos, one_mul]
    have h2 : ((pass : ℚ) * 2) = ((2 * pass : Nat) : ℚ) := by push_cast; ring
    rw [h2, Nat.cast_le]
  rw [classifyRate]
  by_cases h1 : pass = total
  · rw [if_pos (hone.mpr h1), if_pos h1]
  · rw [if_neg (fun hq => h1 (hone.mp hq)), if_neg h1]
    by_cases h2 : total ≤ 2 * pass
    · rw [if_pos (hhalf.mpr h2), if_pos h2]
    · rw [if_neg (fun hq => h2 (hhalf.mp hq)), if_neg h2]

theorem fetchSeq_cached (external v : List Nat) :
    ∀ n, fetchSeq external n (some v) = (some v, List.replicate n v, 0) := by
  intro n
  induction n with
  | zero => rfl
  | succ m ih => simp [fetchSeq, getReposOnce, ih, List.replicate_succ]

theorem runTestUpdate_completedAt (t : TestRow) (s : EvalResult) (now c : Int)
    (h : t.completedAt = some c) :
    (runTestUpdate t s now).completedAt = some c := by
  simp [runTestUpdate, h]

theorem runTestUpdates_completedAt (runs : List (EvalResult × Int)) :
    ∀ (t : TestRow) (c : Int), t.completedAt = some c →
      (runTestUpdates t runs).completedAt = some c := by
  induction runs with
  | nil => intro t c h; simpa [runTestUpdates] using h
  | cons p rest ih =>
      intro t c h
      have hstep := runTestUpdate_completedAt t p.1 p.2 c h
      simpa [runTestUpdates, List.foldl_cons] using
        ih (runTestUpdate t p.1 p.2) c hstep

/-! ## Claim C2 — task display status state machine -/

/-- Claim C2: the displayed status claimed by the spec disagrees with the
code at storedStatus = Needs_remediation with a due date within the
14-day window: the source's `computeStatus` returns Due_soon there,
while the spec's state machine (`computeStatusSpec`, the claim's
function) preserves Needs_remediation; outside the window (30 days out)
the two agree. `now = 0`, times in milliseconds. -/
theorem computeStatus_overrides_needs_remediation :
    computeStatus "Needs_remediation" (7 * 24 * 60 * 60 * 1000) none 0
      = "Due_soon" ∧
    computeStatusSpec "Needs_remediation" (7 * 24 * 60 * 60 * 1000) none 0
      = "Needs_remediation" ∧
    computeStatus "Needs_remediation" (30 * 24 * 60 * 60 * 1000) none 0
      = "Needs_remediation" ∧
    ("Due_soon" : String) ≠ "Needs_remediation" := by
  refine ⟨by decide, by decide, by decide, by decide⟩

/-! ## Claim C7 — device check-in classification -/

/-- Claim C7: `calcComplianceStatus` returns COMPLIANT exactly when all
five posture fields are true, and NON_COMPLIANT otherwise. -/
theorem checkin_compliant_iff_all_posture (p : Posture) :
    calcComplianceStatus p = ComplianceStatus.COMPLIANT ↔
      (p.diskEncryptionEnabled = true ∧ p.screenLockEnabled = true ∧
       p.firewallEnabled = true ∧ p.systemIntegrityEnabled = true ∧
       p.autoUpdateEnabled = true) := by
  obtain ⟨a, b, c, d, e⟩ := p
  cases a <;> cases b <;> cases c <;> cases d <;> cases e <;> decide

/-! ## Claim C1 — risk reopening without duplication -/

/-- Claim C1 (amended): in the GitHub scan path, `upsertRisk` on a pair
whose matching Risk is MITIGATED transitions that same row to OPEN with
a refreshed score, adds no row, and preserves the number of Risks per
(subjectId, title); the device-agent path does not have this property
(see the counterexample). -/
theorem risk_reopen_no_duplicate (db : List Risk)
    (organizationId assetId repoFullName : String) (check : CheckDef)
    (r : Risk)
    (hfind : db.find? (riskMatches assetId (check.riskTitle repoFullName))
      = some r)
    (hmit : r.status = RiskStatus.MITIGATED) :
    (upsertRisk db organizationId assetId check repoFullName).length
      = db.length ∧
    (upsertRisk db organizationId assetId check repoFullName).countP
        (riskMatches assetId (check.riskTitle repoFullName)) =
      db.countP (riskMatches assetId (check.riskTitle repoFullName)) ∧
    (upsertRisk db organizationId assetId check repoFullName).find?
        (riskMatches assetId (check.riskTitle repoFullName)) =
      some { r with status := RiskStatus.OPEN,
                    riskScore := calcScore check.impact check.likelihood } := by
  have hr : riskMatches assetId (check.riskTitle repoFullName) r = true :=
    List.find?_some hfind
  have hne : ¬ (r.status = RiskStatus.OPEN) := by
    rw [hmit]; decide
  have hstep : upsertRisk db organizationId assetId check repoFullName =
      replaceFirst (riskMatches assetId (check.riskTitle repoFullName))
        (fun x => { x with status := RiskStatus.OPEN, riskScore := calcScore check.impact check.likelihood })
        db := by
    simp only [upsertRisk, hfind, if_neg hne]
  rw [hstep]
  refine ⟨replaceFirst_length _ _ db,
    countP_replaceFirst _ _ (fun x hx => ?_) db,
    find?_replaceFirst _ _ db r hfind ?_⟩
  · simpa [riskMatches] using hx
  · simpa [riskMatches] using hr

/-- Claim C1 witness: the theorem applied to a one-row database holding
a MITIGATED branch-protection risk. -/
theorem risk_reopen_no_duplicate_witness :
    (([mitigatedBranchRisk] : List Risk).find?
        (riskMatches "a1" (branchProtectionCheck.riskTitle "acme/api"))
      = some mitigatedBranchRisk) ∧
    mitigatedBranchRisk.status = RiskStatus.MITIGATED ∧
    ((upsertRisk [mitigatedBranchRisk] "org1" "a1" branchProtectionCheck
        "acme/api").length = ([mitigatedBranchRisk] : List Risk).length ∧
     (upsertRisk [mitigatedBranchRisk] "org1" "a1" branchProtectionCheck
        "acme/api").countP
         (riskMatches "a1" (branchProtectionCheck.riskTitle "acme/api")) =
       ([mitigatedBranchRisk] : List Risk).countP
         (riskMatches "a1" (branchProtectionCheck.riskTitle "acme/api")) ∧
     (upsertRisk [mitigatedBranchRisk] "org1" "a1" branchProtectionCheck
        "acme/api").find?
         (riskMatches "a1" (branchProtectionCheck.riskTitle "acme/api")) =
       some { mitigatedBranchRisk with status := RiskStatus.OPEN, riskScore := calcScore branchProtectionCheck.impact branchProtectionCheck.likelihood }) :=
  ⟨by decide, by decide,
   risk_reopen_no_duplicate [mitigatedBranchRisk] "org1" "a1" "acme/api"
     branchProtectionCheck mitigatedBranchRisk (by decide) (by decide)⟩

/-- Claim C1 counterexample: in the device-agent path a Fail verdict for
a pair whose only Risk is MITIGATED does not transition that row; it
creates a second row with the same (assetId, title), so the pair ends
with two Risks — refuting the claim for this write path. -/
theorem risk_reopen_agent_duplicates :
    (agentFailRiskStep [mitigatedDiskRisk] "a1" "Mac" diskEncryptionRule).length
      = 2 ∧
    (agentFailRiskStep [mitigatedDiskRisk] "a1" "Mac" diskEncryptionRule).countP
        (riskMatches "a1" diskEncryptionRule.riskTitle) = 2 ∧
    (agentFailRiskStep [mitigatedDiskRisk] "a1" "Mac"
        diskEncryptionRule).head? = some mitigatedDiskRisk ∧
    mitigatedDiskRisk.status = RiskStatus.MITIGATED := by
  refine ⟨by decide, by decide, by decide, by decide⟩

/-! ## Claim C3 — Pass mitigates an OPEN risk -/

/-- Claim C3 (amended): in the device-agent engine a Pass verdict
transitions every OPEN risk for the (subject, rule) pair to MITIGATED
and leaves no OPEN risk for that pair; the GitHub scan path does not
mitigate on Pass (see the counterexample). -/
theorem risk_mitigate_on_pass (db : List Risk) (assetId : String)
    (rule : AgentRule) :
    (∀ r ∈ db, r.assetId = assetId → r.title = rule.riskTitle →
        r.status = RiskStatus.OPEN →
        { r with status := RiskStatus.MITIGATED } ∈
          agentPassStep db assetId rule) ∧
    (∀ r ∈ agentPassStep db assetId rule,
        r.assetId = assetId → r.title = rule.riskTitle →
        r.status ≠ RiskStatus.OPEN) := by
  constructor
  · intro r hr h1 h2 h3
    have hcond : (r.assetId == assetId && r.title == rule.riskTitle
        && r.status == RiskStatus.OPEN) = true := by
      simp [h1, h2, h3]
    have hmem := List.mem_map_of_mem
      (fun x : Risk =>
        if x.assetId == assetId && x.title == rule.riskTitle
            && x.status == RiskStatus.OPEN
        then { x with status := RiskStatus.MITIGATED } else x) hr
    simpa [agentPassStep, hcond] using hmem
  · intro r hr h1 h2
    simp only [agentPassStep, List.mem_map] at hr
    obtain ⟨x, hx, hfx⟩ := hr
    by_cases hc : (x.assetId == assetId && x.title == rule.riskTitle
        && x.status == RiskStatus.OPEN) = true
    · rw [if_pos hc] at hfx
      rw [← hfx]
      simp
    · rw [if_neg hc] at hfx
      subst hfx
      simpa [h1, h2] using hc

/-- Claim C3 witness: the theorem applied to a one-row database holding
an OPEN disk-encryption risk; the Pass branch mitigates it. -/
theorem risk_mitigate_on_pass_witness :
    openDiskRisk ∈ ([openDiskRisk] : List Risk) ∧
    openDiskRisk.assetId = "a1" ∧
    openDiskRisk.title = diskEncryptionRule.riskTitle ∧
    openDiskRisk.status = RiskStatus.OPEN ∧
    { openDiskRisk with status := RiskStatus.MITIGATED } ∈
      agentPassStep [openDiskRisk] "a1" diskEncryptionRule :=
  ⟨by decide, by decide, by decide, by decide,
   (risk_mitigate_on_pass [openDiskRisk] "a1" diskEncryptionRule).1
     openDiskRisk (by decide) (by decide) (by decide) (by decide)⟩

/-- Claim C3 counterexample: in the GitHub scan path a compliant (Pass)
verdict for a repo+check pair only bumps the pass counter; an existing
OPEN risk for that pair stays OPEN and untouched — refuting the claim
for this write path. -/
theorem risk_pass_github_no_mitigate :
    (githubCheckStep [openBranchRisk] { pass := 0, total := 0 } "org1" "a1"
        "acme/api" branchProtectionCheck (some true)).1 = [openBranchRisk] ∧
    openBranchRisk.status = RiskStatus.OPEN := by
  exact ⟨rfl, rfl⟩

/-! ## Claim C5 — evidence deduplication -/

/-- Claim C5 (amended): the GitHub-scan evidence write is idempotent per
(controlId, contentHash) exactly as claimed — re-running it is a no-op
and, starting from no matching row, it leaves exactly one row for the
pair; the device-agent evidence write instead dedups on contentHash
alone: any existing row with the same hash suppresses the insert. -/
theorem evidence_dedup_per_control_hash (db : List Evidence)
    (controlId hash : String)
    (hnone : db.countP (fun e => e.controlId == controlId && e.hash == hash)
      = 0) :
    (upsertEvidenceStepScan (upsertEvidenceStepScan db controlId hash)
        controlId hash = upsertEvidenceStepScan db controlId hash) ∧
    ((upsertEvidenceStepScan db controlId hash).countP
        (fun e => e.controlId == controlId && e.hash == hash) = 1) ∧
    (∀ e ∈ db, e.hash = hash →
      agentEvidenceStep db controlId hash = db) := by
  have hfind : db.find? (fun e => e.controlId == controlId && e.hash == hash)
      = none := by
    rw [List.find?_eq_none]
    intro e he
    have := List.countP_eq_zero.mp hnone e he
    simpa using this
  have hone : upsertEvidenceStepScan db controlId hash =
      db ++ [{ hash := hash, controlId := controlId }] := by
    simp only [upsertEvidenceStepScan, hfind]
  have hp : (fun e : Evidence => e.controlId == controlId && e.hash == hash)
      { hash := hash, controlId := controlId } = true := by simp
  refine ⟨?_, ?_, ?_⟩
  · rw [hone]
    have hfind2 : (db ++ ([{ hash := hash, controlId := controlId }] : List Evidence)).find?
        (fun e => e.controlId == controlId && e.hash == hash) =
        some { hash := hash, controlId := controlId } := by
      rw [find?_append_none _ _ _ hfind]
      simp [List.find?_cons_of_pos _ hp]
    simp only [upsertEvidenceStepScan, hfind2]
  · rw [hone, List.countP_append, hnone]
    simp [hp]
  · intro e he hh
    have hfindh : (db.find? (fun e => e.hash == hash)).isSome = true := by
      rw [List.find?_isSome]
      exact ⟨e, he, by simp [hh]⟩
    simp only [agentEvidenceStep]
    obtain ⟨x, hx⟩ := Option.isSome_iff_exists.mp hfindh
    rw [hx]

/-- Claim C5 witness: the theorem applied to a database holding one
evidence row for a different control: the scan write for control `c2`
inserts exactly one row and is idempotent, while the agent write is
suppressed by the foreign row with the same hash. -/
theorem evidence_dedup_per_control_hash_witness :
    (([{ hash := "h1", controlId := "c1" }] : List Evidence).countP
        (fun e => e.controlId == "c2" && e.hash == "h1") = 0) ∧
    ((upsertEvidenceStepScan (upsertEvidenceStepScan
          [{ hash := "h1", controlId := "c1" }] "c2" "h1") "c2" "h1"
        = upsertEvidenceStepScan [{ hash := "h1", controlId := "c1" }]
            "c2" "h1") ∧
     ((upsertEvidenceStepScan [{ hash := "h1", controlId := "c1" }] "c2"
          "h1").countP (fun e => e.controlId == "c2" && e.hash == "h1") = 1) ∧
     (∀ e ∈ ([{ hash := "h1", controlId := "c1" }] : List Evidence),
        e.hash = "h1" →
        agentEvidenceStep [{ hash := "h1", controlId := "c1" }] "c2" "h1"
          = [{ hash := "h1", controlId := "c1" }])) :=
  ⟨by decide,
   evidence_dedup_per_control_hash [{ hash := "h1", controlId := "c1" }]
     "c2" "h1" (by decide)⟩

/-- Claim C5 counterexample: the agent path violates per-(controlId,
contentHash) idempotency as claimed: no row with (controlId c2, hash h1)
exists, yet no new row is inserted, because the agent write looks up by
hash alone and an h1 row for control c1 already exists. -/
theorem evidence_agent_dedups_on_hash_only :
    agentEvidenceStep [{ hash := "h1", controlId := "c1" }] "c2" "h1"
      = [{ hash := "h1", controlId := "c1" }] ∧
    (([{ hash := "h1", controlId := "c1" }] : List Evidence).countP
        (fun e => e.controlId == "c2" && e.hash == "h1") = 0) := by
  exact ⟨by decide, by decide⟩

/-! ## Claim C6 — risk score is the ordinal product -/

/-- Claim C6 (amended): for the four valid severity levels, the GitHub
path's `calcScore` is exactly the spec's ordinal product (LOW=1,
MEDIUM=2, HIGH=3, CRITICAL=4); the device-agent rules carry hard-coded
scores, each equal to the product under the shifted mapping LOW=2,
MEDIUM=3, HIGH=4 — not the claimed ordinals (see the counterexample). -/
theorem risk_score_ordinal_product (i l : String)
    (hi : i ∈ (["LOW", "MEDIUM", "HIGH", "CRITICAL"] : List String))
    (hl : l ∈ (["LOW", "MEDIUM", "HIGH", "CRITICAL"] : List String)) :
    calcScore i l = specOrdinal i * specOrdinal l ∧
    ∀ rule ∈ COMPLIANCE_RULES,
      rule.score = (specOrdinal rule.impact + 1) *
        (specOrdinal rule.likelihood + 1) := by
  constructor
  · fin_cases hi <;> fin_cases hl <;> decide
  · intro rule hrule
    fin_cases hrule <;> decide

/-- Claim C6 witness: the theorem applied at impact HIGH, likelihood
MEDIUM. -/
theorem risk_score_ordinal_product_witness :
    "HIGH" ∈ (["LOW", "MEDIUM", "HIGH", "CRITICAL"] : List String) ∧
    "MEDIUM" ∈ (["LOW", "MEDIUM", "HIGH", "CRITICAL"] : List String) ∧
    (calcScore "HIGH" "MEDIUM" = specOrdinal "HIGH" * specOrdinal "MEDIUM" ∧
     ∀ rule ∈ COMPLIANCE_RULES,
       rule.score = (specOrdinal rule.impact + 1) *
         (specOrdinal rule.likelihood + 1)) :=
  ⟨by decide, by decide,
   risk_score_ordinal_product "HIGH" "MEDIUM" (by decide) (by decide)⟩

/-- Claim C6 counterexample: the agent engine stores the rule's
hard-coded score: the disk-encryption risk it creates carries score 12,
while the claimed ordinal product for (HIGH, MEDIUM) is 3 × 2 = 6. -/
theorem risk_score_agent_not_ordinal :
    (agentFailRiskStep [] "a1" "Mac" diskEncryptionRule).map
        (fun r => r.riskScore) = [12] ∧
    diskEncryptionRule.impact = "HIGH" ∧
    diskEncryptionRule.likelihood = "MEDIUM" ∧
    specOrdinal "HIGH" * specOrdinal "MEDIUM" = 6 ∧
    (12 : Nat) ≠ 6 := by
  refine ⟨by decide, by decide, by decide, by decide, by decide⟩

/-! ## Claim C4 — control status classification and aggregation -/

/-- Claim C4: with a positive total, the aggregated status is
IMPLEMENTED iff passRate = 1, PARTIALLY_IMPLEMENTED iff 0.5 ≤ passRate
< 1 (the 0.5 boundary included), NOT_IMPLEMENTED iff passRate < 0.5;
and the merged counters sum the per-check counts over every check
mapped to each ISO reference (A.5.15 receives accessControl + repoMeta). -/
theorem control_status_classification (pass total : Nat)
    (cpc : CheckPassCounts) (hle : pass ≤ total) (hpos : 0 < total)
    (h1 : cpc.branchProtection.total ≠ 0) (h2 : cpc.commitSigning.total ≠ 0)
    (h3 : cpc.cicd.total ≠ 0) (h4 : cpc.accessControl.total ≠ 0)
    (h5 : cpc.repoMeta.total ≠ 0) :
    (classifyRate pass total = ControlStatus.IMPLEMENTED ↔
      (pass : ℚ) / (total : ℚ) = 1) ∧
    (classifyRate pass total = ControlStatus.PARTIALLY_IMPLEMENTED ↔
      ((1 : ℚ) / 2 ≤ (pass : ℚ) / (total : ℚ) ∧
       (pass : ℚ) / (total : ℚ) < 1)) ∧
    (classifyRate pass total = ControlStatus.NOT_IMPLEMENTED ↔
      (pass : ℚ) / (total : ℚ) < 1 / 2) ∧
    controlPassRate cpc = [
      ("A.8.32", cpc.branchProtection), ("A.8.24", cpc.commitSigning),
      ("A.8.25", cpc.cicd),
      ("A.5.15", ⟨cpc.accessControl.pass + cpc.repoMeta.pass,
                  cpc.accessControl.total + cpc.repoMeta.total⟩),
      ("A.5.18", cpc.accessControl)] := by
  have htpos : (0 : ℚ) < (total : ℚ) := by exact_mod_cast hpos
  have hle1 : (pass : ℚ) / (total : ℚ) ≤ 1 := by
    rw [div_le_one htpos]; exact_mod_cast hle
  refine ⟨⟨?_, ?_⟩, ⟨?_, ?_⟩, ⟨?_, ?_⟩, ?_⟩
  · intro h
    by_contra hq
    rw [classifyRate, if_neg hq] at h
    split_ifs at h
  · intro hq
    rw [classifyRate, if_pos hq]
  · intro h
    by_cases hq : (pass : ℚ) / (total : ℚ) = 1
    · rw [classifyRate, if_pos hq] at h
      exact ControlStatus.noConfusion h
    · by_cases hq2 : (1 : ℚ) / 2 ≤ (pass : ℚ) / (total : ℚ)
      · exact ⟨hq2, lt_of_le_of_ne hle1 hq⟩
      · rw [classifyRate, if_neg hq, if_neg hq2] at h
        exact ControlStatus.noConfusion h
  · rintro ⟨hhalf, hlt⟩
    rw [classifyRate, if_neg (ne_of_lt hlt), if_pos hhalf]
  · intro h
    by_cases hq : (pass : ℚ) / (total : ℚ) = 1
    · rw [classifyRate, if_pos hq] at h
      exact ControlStatus.noConfusion h
    · by_cases hq2 : (1 : ℚ) / 2 ≤ (pass : ℚ) / (total : ℚ)
      · rw [classifyRate, if_neg hq, if_pos hq2] at h
        exact ControlStatus.noConfusion h
      · exact not_le.mp hq2
  · intro hlt
    have hq : ¬((pass : ℚ) / (total : ℚ) = 1) := by
      intro h
      rw [h] at hlt
      norm_num at hlt
    have hq2 : ¬((1 : ℚ) / 2 ≤ (pass : ℚ) / (total : ℚ)) := not_le.mpr hlt
    rw [classifyRate, if_neg hq, if_neg hq2]
  · obtain ⟨bp, cs, ci, ac, rm⟩ := cpc
    simp only at h1 h2 h3 h4 h5
    simp +decide [controlPassRate, isoMap, cpcGet, bumpRef, h1, h2, h3, h4,
      h5]

/-- Claim C4 witness: the theorem applied at pass = 1, total = 2 (the
exact 0.5 boundary) and the sample counters. -/
theorem control_status_classification_witness :
    (1 : Nat) ≤ 2 ∧ (0 : Nat) < 2 ∧
    sampleCounts.branchProtection.total ≠ 0 ∧
    sampleCounts.commitSigning.total ≠ 0 ∧
    sampleCounts.cicd.total ≠ 0 ∧
    sampleCounts.accessControl.total ≠ 0 ∧
    sampleCounts.repoMeta.total ≠ 0 ∧
    ((classifyRate 1 2 = ControlStatus.IMPLEMENTED ↔
        ((1 : Nat) : ℚ) / ((2 : Nat) : ℚ) = 1) ∧
     (classifyRate 1 2 = ControlStatus.PARTIALLY_IMPLEMENTED ↔
        ((1 : ℚ) / 2 ≤ ((1 : Nat) : ℚ) / ((2 : Nat) : ℚ) ∧
         ((1 : Nat) : ℚ) / ((2 : Nat) : ℚ) < 1)) ∧
     (classifyRate 1 2 = ControlStatus.NOT_IMPLEMENTED ↔
        ((1 : Nat) : ℚ) / ((2 : Nat) : ℚ) < 1 / 2) ∧
     controlPassRate sampleCounts = [
       ("A.8.32", sampleCounts.branchProtection),
       ("A.8.24", sampleCounts.commitSigning),
       ("A.8.25", sampleCounts.cicd),
       ("A.5.15", ⟨sampleCounts.accessControl.pass + sampleCounts.repoMeta.pass,
                   sampleCounts.accessControl.total + sampleCounts.repoMeta.total⟩),
       ("A.5.18", sampleCounts.accessControl)]) :=
  ⟨by decide, by decide, by decide, by decide, by decide, by decide, by decide,
   control_status_classification 1 2 sampleCounts (by decide) (by decide)
     (by decide) (by decide) (by decide) (by decide) (by decide)⟩

/-! ## Claim C9 — full recomputation of control status -/

/-- Claim C9 (amended): the scan aggregator's write path recomputes the
stored status as a pure function of the current counts — every control
matching the reference is set to `classifyRate pass total` regardless of
its previous status, and with pass < total that value is never
IMPLEMENTED, so a previously IMPLEMENTED control is lowered; the
automated-test promotion path does not have this property (see the
counterexample). -/
theorem control_status_recomputed (controls : List Control) (ref : String)
    (pass total : Nat) (hlt : pass < total) :
    classifyRate pass total ≠ ControlStatus.IMPLEMENTED ∧
    ∀ c ∈ controls, strContains c.isoReference ref = true →
      { c with status := classifyRate pass total } ∈
        updateControlsForRef controls ref (classifyRate pass total) := by
  have hpos : 0 < total := Nat.lt_of_le_of_lt (Nat.zero_le _) hlt
  constructor
  · rw [classifyRate_char pass total hpos, if_neg (Nat.ne_of_lt hlt)]
    split_ifs <;> decide
  · intro c hc hmatch
    have hmem := List.mem_map_of_mem
      (fun x : Control =>
        if strContains x.isoReference ref then
          { x with status := classifyRate pass total } else x) hc
    simpa [updateControlsForRef, hmatch] using hmem

/-- Claim C9 witness: the theorem applied to a singleton control list
with a previously IMPLEMENTED control matching A.5.15 at pass = 1,
total = 2. -/
theorem control_status_recomputed_witness :
    (1 : Nat) < 2 ∧
    sampleControl ∈ ([sampleControl] : List Control) ∧
    strContains sampleControl.isoReference "A.5.15" = true ∧
    { sampleControl with status := classifyRate 1 2 } ∈
      updateControlsForRef [sampleControl] "A.5.15" (classifyRate 1 2) :=
  ⟨by decide, by decide, by decide,
   (control_status_recomputed [sampleControl] "A.5.15" 1 2 (by decide)).2
     sampleControl (by decide) (by decide)⟩

/-- Claim C9 counterexample: the automated-test promotion path in
`runAutomatedTests` is not a recomputation: with one mapped test not OK
(pass rate below 1) a control stored as IMPLEMENTED keeps IMPLEMENTED —
it is never lowered by this write path. -/
theorem control_promotion_never_lowers :
    promoteControlStep ControlStatus.IMPLEMENTED ["OK", "Needs_remediation"]
      = ControlStatus.IMPLEMENTED ∧
    (["OK", "Needs_remediation"].all (fun s => s == "OK")) = false := by
  exact ⟨by decide, by decide⟩

/-! ## Claim C8 — per-run cache -/

/-- Claim C8 (amended): for sequential (non-overlapping) requests, any
positive number of `getRepos` calls on one evaluator instance performs
exactly one underlying external call and every requester receives the
same data; overlapping requesters are not single-flighted (see the
counterexample). -/
theorem cache_at_most_one_call_sequential (external : List Nat) (n : Nat)
    (hn : 0 < n) :
    (fetchSeq external n none).2.2 = 1 ∧
    ∀ r ∈ (fetchSeq external n none).2.1, r = external := by
  cases n with
  | zero => simp at hn
  | succ m =>
      have hrun : fetchSeq external (m + 1) none =
          (some external, external :: List.replicate m external, 1) := by
        simp [fetchSeq, getReposOnce, fetchSeq_cached]
      rw [hrun]
      refine ⟨rfl, ?_⟩
      intro r hr
      rcases List.mem_cons.mp hr with h | h
      · exact h
      · exact List.eq_of_mem_replicate h

/-- Claim C8 witness: three sequential requests, one external call, all
results equal to the fetched data. -/
theorem cache_at_most_one_call_sequential_witness :
    (0 : Nat) < 3 ∧
    ((fetchSeq [5] 3 none).2.2 = 1 ∧ ∀ r ∈ (fetchSeq [5] 3 none).2.1, r = [5]) :=
  ⟨by decide, cache_at_most_one_call_sequential [5] 3 (by decide)⟩

/-- Claim C8 counterexample: two overlapping callers of `getRepos` on an
empty cache — both run the synchronous cache check before either HTTP
call resolves — perform two underlying external calls for the same key
in one run, refuting the at-most-one-call/single-flight claim. -/
theorem cache_concurrent_double_fetch :
    (runSchedule [5] initialWorld
      [CacheAct.startA, CacheAct.startB, CacheAct.finishA,
       CacheAct.finishB]).calls = 2 ∧
    ¬((runSchedule [5] initialWorld
      [CacheAct.startA, CacheAct.startB, CacheAct.finishA,
       CacheAct.finishB]).calls ≤ 1) := by
  exact ⟨by decide, by decide⟩

/-! ## Claim C10 — completedAt is sticky and pins the display to OK -/

/-- Claim C10: once a test row's completedAt is set, any sequence of
automated runs — Fail verdicts included — preserves it, and the display
function returns OK for the resulting row at any read time. -/
theorem completedAt_sticky (t : TestRow) (c : Int)
    (runs : List (EvalResult × Int)) (now : Int)
    (h : t.completedAt = some c) :
    (runTestUpdates t runs).completedAt = some c ∧
    computeStatus (runTestUpdates t runs).status
      (runTestUpdates t runs).dueDate (runTestUpdates t runs).completedAt now
      = "OK" := by
  have hc := runTestUpdates_completedAt runs t c h
  refine ⟨hc, ?_⟩
  simp [computeStatus, hc]

/-- Claim C10 witness: a completed row run again with a Fail verdict
keeps its completedAt and still displays OK. -/
theorem completedAt_sticky_witness :
    sampleTestRow.completedAt = some 5 ∧
    ((runTestUpdates sampleTestRow [(EvalResult.Fail, 6)]).completedAt
        = some 5 ∧
     computeStatus (runTestUpdates sampleTestRow [(EvalResult.Fail, 6)]).status
       (runTestUpdates sampleTestRow [(EvalResult.Fail, 6)]).dueDate
       (runTestUpdates sampleTestRow [(EvalResult.Fail, 6)]).completedAt 200
       = "OK") :=
  ⟨rfl, completedAt_sticky sampleTestRow 5 [(EvalResult.Fail, 6)] 200 rfl⟩

end ISMS
